import Mathlib

/-!
Shallow embedding of the authentication controller of the repository
(src/src/controllers/authController.ts) and of the external collaborators it
uses, for verifying the claims of the specification.

Modelling conventions:
- A JSON-like flat object (request bodies, stored record fields) is an
  association list of string keys to string values (Obj); lookup takes the
  first binding, matching JS object semantics after spread/override.
- JWT strings are modelled by the inductive JwtString: distinct constructor
  arguments correspond to distinct token strings (JWT encoding is injective
  and deterministic for a fixed algorithm), so byte-for-byte string equality
  of tokens is structural equality of JwtString values.
- Express responses: a handler may attempt several res.status().json() calls
  because the source omits return after some of them; in Express only the
  first write succeeds and every later write throws (headers already sent)
  inside the handler, so a handler is modelled as producing the list of
  successfully sent responses (attemptSend keeps the first) next to the
  final store; the observable response is the head of that list.
- bcryptjs hash and compare are modelled by an injective tagging function:
  compare succeeds exactly on the hash of the same plaintext.
- JS String.prototype.trim / toLowerCase are modelled by executable
  char-list functions jsTrim / jsToLower.
- The Sequelize store: the User model file is not under src, so the record
  attribute set is taken from the data model of the specification (id, email,
  name, password, role, plus the refresh-token columns); Sequelize create
  and update silently drop keys outside the model attributes, and the
  store enforces uniqueness of the email column, which create surfaces as
  an error. The refresh-token columns written by the controller, named
  refreshToken and refresh_token in the source, are modelled as two typed
  slots on the record.
-/

/-! ## Flat JSON-like objects -/

abbrev Obj := List (String × String)

def getK : Obj → String → Option String
  | [], _ => none
  | (k', v) :: rest, k => if k' = k then some v else getK rest k

def getKD (o : Obj) (k : String) : String := (getK o k).getD ""

/-- JS object override: later binding for a key replaces an earlier one. -/
def setK (o : Obj) (k v : String) : Obj :=
  (k, v) :: o.filter (fun p => p.1 ≠ k)

/-- JS delete of a key from a plain object. -/
def deleteK (o : Obj) (k : String) : Obj :=
  o.filter (fun p => p.1 ≠ k)

/-! ## JS string normalization (trim and toLowerCase) -/

def jsTrim (s : String) : String :=
  String.mk (((s.data.dropWhile Char.isWhitespace).reverse.dropWhile Char.isWhitespace).reverse)

def jsToLower (s : String) : String :=
  String.mk (s.data.map Char.toLower)

/-- Email normalization as performed at line 16 of the controller:
userData.email.trim().toLowerCase(). -/
def normEmail (e : String) : String := jsToLower (jsTrim e)

/-! ## bcryptjs model -/

/-- Model of bcrypt.hash with fixed cost 10: an injective one-way tagging.
Injectivity mirrors that distinct plaintexts verify differently. -/
def bcryptHash (plaintext : String) : String := "bcrypt10$" ++ plaintext

/-- Model of bcrypt.compare: succeeds exactly on the stored hash of the same
plaintext. -/
def bcryptCompare (plaintext digest : String) : Bool :=
  digest == bcryptHash plaintext

/-! ## Token codec (jsonwebtoken plus the generateTokens helper of the repository) -/

inductive TokenKind where
  | access
  | refresh
deriving DecidableEq, Repr

structure Config where
  accessSecret : String
  refreshSecret : String
  accessTTL : Nat
  refreshTTL : Nat
deriving DecidableEq, Repr

/-- A JWT as an opaque signed string: two token strings are equal iff their
payload, signing secret, issued-at and expiry coincide. -/
inductive JwtString where
  | malformed (raw : String)
  | wellFormed (claims : Obj) (kind : TokenKind) (secret : String) (iat exp : Nat)
deriving DecidableEq, Repr

def tokenClaims : JwtString → Obj
  | .malformed _ => []
  | .wellFormed c _ _ _ _ => c

/-- Model of jwt.verify(token, secret) at time now: fails on a missing or
malformed token, a wrong signature, or an expired token; on success returns
the embedded payload. -/
def jwtVerify (t : Option JwtString) (secret : String) (now : Nat) : Except Unit Obj :=
  match t with
  | none => .error ()
  | some (.malformed _) => .error ()
  | some (.wellFormed claims _ s _ exp) =>
      if s = secret ∧ now < exp then .ok claims else .error ()

/-- Modelled from the spec: the generateTokens helper lives in src/helper,
which is not under src; per sections 4.2 and 4.4 it signs an access token and
a refresh token carrying identical claims, each with its kind-specific secret
and expiry from configuration. Returns (accessToken, refreshToken). -/
def generateTokens (claims : Obj) (cfg : Config) (now : Nat) : JwtString × JwtString :=
  (JwtString.wellFormed claims .access cfg.accessSecret now (now + cfg.accessTTL),
   JwtString.wellFormed claims .refresh cfg.refreshSecret now (now + cfg.refreshTTL))

/-! ## HTTP responses -/

inductive RVal where
  | s (v : String)
  | t (v : JwtString)
  | o (v : Obj)
deriving DecidableEq, Repr

structure HttpResp where
  status : Nat
  body : List (String × RVal)
deriving DecidableEq, Repr

def rvalHasKey (k : String) : RVal → Bool
  | .s _ => false
  | .t tok => (tokenClaims tok).any (fun p => p.1 == k)
  | .o ob => ob.any (fun p => p.1 == k)

/-- Whether a key occurs anywhere in a response body, including inside a
returned user object or inside the claims of a returned token. -/
def bodyHasKey (k : String) (b : List (String × RVal)) : Bool :=
  b.any (fun p => p.1 == k || rvalHasKey k p.2)

/-- Express semantics for a repeated response write: only the first
res.status().json() succeeds; later writes throw and send nothing. -/
def attemptSend (sent : List HttpResp) (r : HttpResp) : List HttpResp :=
  if sent.isEmpty then [r] else sent

/-! ## User record store (Sequelize User model) -/

structure UserRecord where
  fields : Obj
  refreshToken : Option JwtString
  refresh_token : Option JwtString
deriving DecidableEq, Repr

abbrev Store := List UserRecord

/-- The scalar attributes of the User model, from the spec data model (the model
file is not under src): id, email, name, password hash, role. Keys outside
this set are dropped by Sequelize on create. -/
def attrNames : List String := ["id", "name", "email", "role", "password"]

def storeFindByEmail (s : Store) (e : String) : Option UserRecord :=
  s.find? (fun r => getK r.fields "email" == some e)

def storeFindById (s : Store) (i : String) : Option UserRecord :=
  s.find? (fun r => getK r.fields "id" == some i)

def freshId (s : Store) : String := toString s.length

/-- Applies a store-side column default: the value is used only when the key
is absent. -/
def withDefault (o : Obj) (k v : String) : Obj :=
  match getK o k with
  | some _ => o
  | none => setK o k v

/-- The row actually inserted by User.create: only model attributes are
kept, a missing id gets a generated key and a missing role gets the
standard role, per the spec data model. -/
def createFields (s : Store) (input : Obj) : Obj :=
  withDefault (withDefault (input.filter (fun p => attrNames.contains p.1)) "id" (freshId s)) "role" "user"

/-- Model of User.create: enforces the unique email constraint (failing like
a constraint violation), otherwise inserts the row built by createFields. -/
def storeCreate (s : Store) (input : Obj) : Except Unit (UserRecord × Store) :=
  if s.any (fun r => getK r.fields "email" == getK input "email") then
    .error ()
  else
    .ok (⟨createFields s input, none, none⟩, s ++ [⟨createFields s input, none, none⟩])

/-- Model of User.update({refreshToken: t}, {where: {id}}): sets the
refreshToken column on every matching row. -/
def storeUpdateRefreshToken (s : Store) (i : String) (t : JwtString) : Store :=
  s.map (fun r => if getK r.fields "id" == some i then ⟨r.fields, some t, r.refresh_token⟩ else r)

/-- Model of User.update({refresh_token: t}, {where: {id}}) as written in
login: the write targets the refresh_token key, not refreshToken. -/
def storeUpdateRefreshTokenSnake (s : Store) (i : String) (t : JwtString) : Store :=
  s.map (fun r => if getK r.fields "id" == some i then ⟨r.fields, r.refreshToken, some t⟩ else r)

/-! ## The controllers (authController.ts) -/

/-- The record handed to User.create at lines 30 to 34: the whole request
body spread, with email replaced by its normalization and password by its
hash. -/
def registerRecord (d : Obj) : Obj :=
  setK (setK d "email" (normEmail (getKD d "email"))) "password" (bcryptHash (getKD d "password"))

def duplicateEmailResp : HttpResp :=
  ⟨400, [("error", RVal.s "User with this email already exists")]⟩

def registerFailureResp : HttpResp :=
  ⟨500, [("error", RVal.s "An error occurred while creating the user")]⟩

/-- The create-and-respond phase of register (lines 29 to 44): any failure of
the store create, a uniqueness violation included, is caught and answered
with the generic 500 error. -/
def registerCreatePhase (s : Store) (d : Obj) : HttpResp × Store :=
  match storeCreate s (registerRecord d) with
  | .ok (r, s') =>
      (⟨201, [("message", RVal.s "User created successfully"),
              ("user", RVal.o (deleteK r.fields "password"))]⟩, s')
  | .error _ => (registerFailureResp, s)

/-- One register call given the outcome of its existence pre-check (lines 21
to 27 and on): answer the conflict if something was found, otherwise run the
create phase. -/
def registerStep (s : Store) (pre : Option UserRecord) (d : Obj) : HttpResp × Store :=
  if pre.isSome then (duplicateEmailResp, s) else registerCreatePhase s d

/-- The register handler (lines 9 to 46): normalize the email, pre-check
existence, then create; the response user object has the password deleted. -/
def register (s : Store) (d : Obj) : HttpResp × Store :=
  registerStep s (storeFindByEmail s (normEmail (getKD d "email"))) d

/-- The identity claims assembled for token issuance (lines 78 to 83 and 124
to 129): id, name, email, role read off the plain record. -/
def claimsOf (fields : Obj) : Obj :=
  [("id", getKD fields "id"), ("name", getKD fields "name"),
   ("email", getKD fields "email"), ("role", getKD fields "role")]

/-- The password comparison and success path of login (lines 63 to 98): on a
match, tokens are issued from the sanitized plain record and the new refresh
token is written to the refresh_token key (lines 88 to 91); on mismatch the
401 is returned. The unreachable line 93 check is dropped: Sequelize update
resolves to an array, which is always truthy. -/
def loginCompare (cfg : Config) (now : Nat) (s : Store) (user : UserRecord)
    (password digest : String) : HttpResp × Store :=
  if bcryptCompare password digest then
    (⟨200, [("message", RVal.s "Login successful"),
            ("accessToken", RVal.t (generateTokens (claimsOf (deleteK user.fields "password")) cfg now).1),
            ("refreshToken", RVal.t (generateTokens (claimsOf (deleteK user.fields "password")) cfg now).2)]⟩,
     storeUpdateRefreshTokenSnake s (getKD user.fields "id")
       (generateTokens (claimsOf (deleteK user.fields "password")) cfg now).2)
  else
    (⟨401, [("error", RVal.s "Invalid credentials")]⟩, s)

/-- Login once a record was found: a record with no stored password makes
bcrypt.compare throw, which the catch at line 99 answers with a 400 carrying
the error message. -/
def loginFound (cfg : Config) (now : Nat) (s : Store) (user : UserRecord)
    (password : String) : HttpResp × Store :=
  match getK user.fields "password" with
  | none => (⟨400, [("error", RVal.s "Illegal arguments")]⟩, s)
  | some digest => loginCompare cfg now s user password digest

/-- The login handler (lines 49 to 102). The email is used as received, with
no normalization. -/
def login (cfg : Config) (now : Nat) (s : Store) (email password : String) : HttpResp × Store :=
  match storeFindByEmail s email with
  | none => (⟨404, [("error", RVal.s "User not found")]⟩, s)
  | some user => loginFound cfg now s user password

/-- The social-login handler (lines 105 to 139): findOrCreate keyed by the
raw email with defaults {name, email}; the dead branch at lines 119 to 122
is unreachable because findOrCreate always yields a record. The refresh
token is stored under the refreshToken key (line 133). -/
def socialLogin (cfg : Config) (now : Nat) (s : Store) (email name : String) : HttpResp × Store :=
  let found := match storeFindByEmail s email with
    | some u => Except.ok (u, s)
    | none => storeCreate s [("name", name), ("email", email)]
  match found with
  | .error _ => (⟨400, [("error", RVal.s "Validation error")]⟩, s)
  | .ok (user, s1) =>
      let userForToken := claimsOf user.fields
      let pair := generateTokens userForToken cfg now
      let s2 := storeUpdateRefreshToken s1 (getKD user.fields "id") pair.2
      (⟨200, [("message", RVal.s "Login successful"),
              ("accessToken", RVal.t pair.1),
              ("refreshToken", RVal.t pair.2)]⟩, s2)

/-- Side effects a refresh call performs, in order. -/
inductive Event where
  | verifyAttempt
  | storeFindById (i : String)
  | storeUpdate (i : String)
deriving DecidableEq, Repr

structure RefreshOut where
  sent : List HttpResp
  store : Store
  events : List Event
deriving DecidableEq, Repr

def missingTokenResp : HttpResp :=
  ⟨401, [("message", RVal.s "Refresh token required")]⟩

def invalidOrExpiredResp : HttpResp :=
  ⟨403, [("message", RVal.s "Invalid or expired refresh token")]⟩

def invalidRefreshResp : HttpResp :=
  ⟨403, [("message", RVal.s "Invalid refresh token")]⟩

/-- The 401 write of line 148: it happens exactly when no token was
presented, and the handler then keeps running. -/
def missingCheck : Option JwtString → List HttpResp
  | none => [missingTokenResp]
  | some _ => []

/-- The part of the refresh handler after a successful jwt.verify (lines 156
to 174): fetch the record by the payload id, compare the stored refreshToken
column byte-for-byte against the presented token (writing the 403 of line
161 on mismatch, without returning), then in every case generate a new pair
from the verified payload, overwrite the refreshToken column, and attempt
the success write of line 174. -/
def refreshOk (cfg : Config) (now : Nat) (s : Store) (presented : Option JwtString)
    (payload : Obj) : RefreshOut :=
  ⟨attemptSend
      (if (storeFindById s (getKD payload "id")).bind (fun r => r.refreshToken) ≠ presented then
        attemptSend (missingCheck presented) invalidRefreshResp
      else missingCheck presented)
      ⟨200, [("accessToken", RVal.t (generateTokens payload cfg now).1),
             ("refreshToken", RVal.t (generateTokens payload cfg now).2)]⟩,
   storeUpdateRefreshToken s (getKD payload "id") (generateTokens payload cfg now).2,
   [.verifyAttempt, .storeFindById (getKD payload "id"), .storeUpdate (getKD payload "id")]⟩

/-- The refresh handler (lines 142 to 178). The two res.status(...) calls at
lines 148 and 161 are not followed by return in the source, so execution
continues past them; attemptSend reflects that only the first response write
succeeds and every later one throws without sending. jwt.verify runs on
whatever was presented, a missing token included; a verification failure is
answered by the catch of line 175. -/
def refreshToken (cfg : Config) (now : Nat) (s : Store) (presented : Option JwtString) : RefreshOut :=
  match jwtVerify presented cfg.refreshSecret now with
  | .error _ => ⟨attemptSend (missingCheck presented) invalidOrExpiredResp, s, [.verifyAttempt]⟩
  | .ok payload => refreshOk cfg now s presented payload

/-- Models the interleaved schedule of the concurrent duplicate
registration scenario: both register calls execute their existence pre-check
against the initial store before either create runs; each step is the
corresponding phase of the register handler. -/
def racedRegisters (s : Store) (d1 d2 : Obj) : HttpResp × HttpResp × Store :=
  ((registerStep s (storeFindByEmail s (normEmail (getKD d1 "email"))) d1).1,
   registerStep (registerStep s (storeFindByEmail s (normEmail (getKD d1 "email"))) d1).2
     (storeFindByEmail s (normEmail (getKD d2 "email"))) d2)

/-- Fields of the last record of a store, for stating properties of the
record a call just created. -/
def lastFields (s : Store) : Obj := ((s.getLast?).map (fun r => r.fields)).getD []

/-! ## Shared demonstration data -/

def demoCfg : Config := ⟨"as", "rs", 10, 100⟩

def demoUser : Obj := [("email", " A@B.com "), ("password", "pw"), ("name", "A")]

def demoStore : Store := (register [] demoUser).2

def demoClaims : Obj := [("id", "0"), ("name", "A"), ("email", "a@b.com"), ("role", "user")]

def demoLoginToken : JwtString := JwtString.wellFormed demoClaims .refresh "rs" 0 100

def demoAccessToken : JwtString := JwtString.wellFormed demoClaims .access "as" 0 10

def emptyRecord : UserRecord := ⟨[], none, none⟩

/-! ## Concrete scenario data for the claims -/

/-- The record register inserts when its pre-check finds no user. -/
def registerInserted (s : Store) (d : Obj) : UserRecord :=
  ⟨createFields s (registerRecord d), none, none⟩

def c1Claims : Obj := [("id", "1"), ("name", "N"), ("email", "n@x.com"), ("role", "user")]

def c1Stored : JwtString := JwtString.wellFormed c1Claims .refresh "rs" 0 100

def c1Presented : JwtString := JwtString.wellFormed c1Claims .refresh "rs" 3 103

def c1Store : Store :=
  [⟨[("id", "1"), ("name", "N"), ("email", "n@x.com"), ("role", "user"),
     ("password", bcryptHash "pw")], some c1Stored, none⟩]

def demoLogin : HttpResp × Store := login demoCfg 0 demoStore "a@b.com" "pw"

def c6Claims : Obj := [("id", "7"), ("name", "Alice"), ("email", "b@x.com"), ("role", "user")]

def c6Token : JwtString := JwtString.wellFormed c6Claims .refresh "rs" 0 100

def c6Record : UserRecord :=
  ⟨[("id", "7"), ("name", "Bob"), ("email", "b@x.com"), ("role", "admin"),
    ("password", bcryptHash "z")], some c6Token, none⟩

def c6Store : Store := [c6Record]

def c7d : Obj := [("email", "a@b.com"), ("password", "x")]

def c7dVar : Obj := [("email", " A@B.com "), ("password", "y")]

def c9d : Obj := [("email", "a@b.com"), ("password", "pw"), ("isAdmin", "yes")]

def c9wd : Obj := [("email", " A@B.com "), ("password", "pw"), ("role", "admin"), ("isAdmin", "1")]

/-! ## Helper lemmas about objects and the store -/

theorem getK_filter_pos (q : String → Bool) (k : String) (hq : q k = true) :
    ∀ o : Obj, getK (o.filter (fun p => q p.1)) k = getK o k := by
  intro o
  induction o with
  | nil => rfl
  | cons a rest ih =>
      by_cases hak : a.1 = k
      · rw [List.filter_cons, hak, hq]
        simp only [if_true]
        cases a with
        | mk k1 v1 => simp only [getK, hak] at *; simp [hak]
      · rw [List.filter_cons]
        cases hqa : q a.1 with
        | true =>
            simp only [if_true]
            cases a with
            | mk k1 v1 =>
                simp only [getK]
                simp only at hak
                rw [if_neg hak, if_neg hak, ih]
        | false =>
            simp only [Bool.false_eq_true, if_false]
            cases a with
            | mk k1 v1 =>
                simp only [getK]
                simp only at hak
                rw [ih, if_neg hak]

theorem getK_filter_neg (q : String → Bool) (k : String) (hq : q k = false) :
    ∀ o : Obj, getK (o.filter (fun p => q p.1)) k = none := by
  intro o
  induction o with
  | nil => rfl
  | cons a rest ih =>
      rw [List.filter_cons]
      cases hqa : q a.1 with
      | true =>
          simp only [if_true]
          cases a with
          | mk k1 v1 =>
              simp only [getK]
              have hne : k1 ≠ k := by
                intro e
                rw [e] at hqa
                rw [hqa] at hq
                exact Bool.noConfusion hq
              rw [if_neg hne, ih]
      | false =>
          simp only [Bool.false_eq_true, if_false]
          exact ih

theorem getK_setK_self (o : Obj) (k v : String) : getK (setK o k v) k = some v := by
  simp [setK, getK]

theorem getK_setK_ne (o : Obj) (k v k' : String) (h : k' ≠ k) :
    getK (setK o k v) k' = getK o k' := by
  unfold setK
  simp only [getK]
  rw [if_neg (fun e => h e.symm)]
  exact getK_filter_pos (fun x => decide (x ≠ k)) k' (by simp [h]) o

theorem getK_deleteK_ne (o : Obj) (k k' : String) (h : k' ≠ k) :
    getK (deleteK o k) k' = getK o k' :=
  getK_filter_pos (fun x => decide (x ≠ k)) k' (by simp [h]) o

theorem any_deleteK_self (k : String) : ∀ o : Obj, (deleteK o k).any (fun p => p.1 == k) = false := by
  intro o
  induction o with
  | nil => rfl
  | cons a rest ih =>
      unfold deleteK at *
      rw [List.filter_cons]
      cases hqa : (decide (a.1 ≠ k)) with
      | true =>
          simp only [if_true, List.any_cons, ih, Bool.or_false]
          simp only [decide_eq_true_eq] at hqa
          exact beq_eq_false_iff_ne.mpr hqa
      | false =>
          simp only [Bool.false_eq_true, if_false]
          exact ih

theorem any_eq_false_of_find?_eq_none {α : Type} (l : List α) (p : α → Bool)
    (h : l.find? p = none) : l.any p = false := by
  simp only [List.find?_eq_none] at h
  simp only [List.any_eq_false]
  intro x hx
  exact h x hx

theorem getK_withDefault_ne (o : Obj) (k v k' : String) (h : k' ≠ k) :
    getK (withDefault o k v) k' = getK o k' := by
  unfold withDefault
  cases hk : getK o k with
  | some x => rfl
  | none => exact getK_setK_ne o k v k' h

theorem getK_withDefault_some (o : Obj) (k v : String) (x : String) (h : getK o k = some x) :
    getK (withDefault o k v) k = some x := by
  unfold withDefault
  rw [h]
  exact h

theorem getK_createFields_attr (s : Store) (input : Obj) (k : String)
    (hk : attrNames.contains k = true) (hid : k ≠ "id") (hrole : k ≠ "role") :
    getK (createFields s input) k = getK input k := by
  unfold createFields
  rw [getK_withDefault_ne _ _ _ _ hrole, getK_withDefault_ne _ _ _ _ hid]
  exact getK_filter_pos (fun x => attrNames.contains x) k hk input

theorem getK_createFields_not_attr (s : Store) (input : Obj) (k : String)
    (hk : attrNames.contains k = false) :
    getK (createFields s input) k = none := by
  have hid : k ≠ "id" := by
    intro e
    rw [e] at hk
    exact Bool.noConfusion ((show attrNames.contains "id" = true by decide).symm.trans hk)
  have hrole : k ≠ "role" := by
    intro e
    rw [e] at hk
    exact Bool.noConfusion ((show attrNames.contains "role" = true by decide).symm.trans hk)
  unfold createFields
  rw [getK_withDefault_ne _ _ _ _ hrole, getK_withDefault_ne _ _ _ _ hid]
  exact getK_filter_neg (fun x => attrNames.contains x) k hk input

theorem getK_createFields_role (s : Store) (input : Obj) (v : String)
    (h : getK input "role" = some v) :
    getK (createFields s input) "role" = some v := by
  unfold createFields
  apply getK_withDefault_some
  rw [getK_withDefault_ne _ _ _ _ (by decide)]
  rw [getK_filter_pos (fun x => attrNames.contains x) "role" (by decide) input]
  exact h

theorem getK_registerRecord_email (d : Obj) :
    getK (registerRecord d) "email" = some (normEmail (getKD d "email")) := by
  unfold registerRecord
  rw [getK_setK_ne _ _ _ _ (by decide)]
  exact getK_setK_self _ _ _

theorem getK_registerRecord_password (d : Obj) :
    getK (registerRecord d) "password" = some (bcryptHash (getKD d "password")) :=
  getK_setK_self _ _ _

theorem getK_registerRecord_other (d : Obj) (k : String)
    (h1 : k ≠ "email") (h2 : k ≠ "password") :
    getK (registerRecord d) k = getK d k := by
  unfold registerRecord
  rw [getK_setK_ne _ _ _ _ h2, getK_setK_ne _ _ _ _ h1]

theorem register_precheck_none (s : Store) (d : Obj)
    (h : storeFindByEmail s (normEmail (getKD d "email")) = none) :
    register s d =
      (⟨201, [("message", RVal.s "User created successfully"),
              ("user", RVal.o (deleteK (registerInserted s d).fields "password"))]⟩,
       s ++ [registerInserted s d]) := by
  have hany : s.any (fun r => getK r.fields "email" == getK (registerRecord d) "email") = false := by
    simp only [getK_registerRecord_email]
    exact any_eq_false_of_find?_eq_none s _ h
  unfold register registerStep
  rw [h]
  simp only [Option.isSome_none, Bool.false_eq_true, if_false]
  unfold registerCreatePhase storeCreate
  rw [hany]
  simp only [Bool.false_eq_true, if_false]
  rfl

theorem bcryptHash_inj (p q : String) (h : bcryptHash p = bcryptHash q) : p = q := by
  unfold bcryptHash at h
  have hd := congrArg String.data h
  simp only [String.data_append] at hd
  exact String.ext (List.append_cancel_left hd)

theorem bcryptCompare_ne (p q : String) (h : p ≠ q) :
    bcryptCompare p (bcryptHash q) = false := by
  unfold bcryptCompare
  rw [beq_eq_false_iff_ne]
  intro he
  exact h (bcryptHash_inj q p he).symm

theorem login_no_user (cfg : Config) (now : Nat) (s : Store) (e p : String)
    (h : storeFindByEmail s e = none) :
    login cfg now s e p = (⟨404, [("error", RVal.s "User not found")]⟩, s) := by
  unfold login
  rw [h]

theorem login_found (cfg : Config) (now : Nat) (s : Store) (e p : String) (u : UserRecord)
    (hf : storeFindByEmail s e = some u) :
    login cfg now s e p = loginFound cfg now s u p := by
  unfold login
  rw [hf]

theorem loginFound_digest (cfg : Config) (now : Nat) (s : Store) (p : String) (u : UserRecord)
    (digest : String) (hpw : getK u.fields "password" = some digest) :
    loginFound cfg now s u p = loginCompare cfg now s u p digest := by
  unfold loginFound
  rw [hpw]

theorem login_wrong_password (cfg : Config) (now : Nat) (s : Store) (e p : String)
    (u : UserRecord) (q : String)
    (hf : storeFindByEmail s e = some u)
    (hpw : getK u.fields "password" = some (bcryptHash q))
    (hne : p ≠ q) :
    login cfg now s e p = (⟨401, [("error", RVal.s "Invalid credentials")]⟩, s) := by
  rw [login_found cfg now s e p u hf, loginFound_digest cfg now s p u _ hpw]
  unfold loginCompare
  rw [bcryptCompare_ne p q hne]
  rfl

theorem storeFindByEmail_append_single (s : Store) (r : UserRecord) (e : String)
    (hs : storeFindByEmail s e = none)
    (hr : getK r.fields "email" = some e) :
    storeFindByEmail (s ++ [r]) e = some r := by
  unfold storeFindByEmail at *
  rw [List.find?_append, hs]
  simp only [Option.none_or]
  simp [List.find?, hr]

theorem socialLogin_new_email (cfg : Config) (now : Nat) (s : Store) (e n : String)
    (h : storeFindByEmail s e = none) :
    (socialLogin cfg now s e n).2.length = s.length + 1 := by
  have hg : getK [("name", n), ("email", e)] "email" = some e := by
    simp [getK]
  have hany : s.any (fun r => getK r.fields "email" == getK [("name", n), ("email", e)] "email") = false := by
    simp only [hg]
    exact any_eq_false_of_find?_eq_none s _ h
  unfold socialLogin storeCreate
  rw [h]
  simp only [hany, Bool.false_eq_true, if_false]
  simp [storeUpdateRefreshToken]

theorem refreshToken_ok (cfg : Config) (now : Nat) (s : Store) (presented : Option JwtString)
    (payload : Obj) (hv : jwtVerify presented cfg.refreshSecret now = .ok payload) :
    refreshToken cfg now s presented = refreshOk cfg now s presented payload := by
  unfold refreshToken
  rw [hv]

/-! ## Claim C1 -/

/-- C1: the claim fails on the code. The presented refresh token verifies
(signature and expiry pass at time 5) but differs byte-for-byte from the
stored currentRefreshToken, so the observable response is indeed the
replay rejection; yet, because the source omits return after the
res.status(403) at line 161, a fresh token pair is still generated from the
presented payload and the new refresh token is written to the store,
replacing the stored one. The claim says no pair is issued and no store
write occurs. -/
theorem c1_replay_guard_still_writes_store :
    (refreshToken demoCfg 5 c1Store (some c1Presented)).sent = [invalidRefreshResp] ∧
    (refreshToken demoCfg 5 c1Store (some c1Presented)).store ≠ c1Store ∧
    (refreshToken demoCfg 5 c1Store (some c1Presented)).store =
      [⟨[("id", "1"), ("name", "N"), ("email", "n@x.com"), ("role", "user"),
         ("password", bcryptHash "pw")],
        some (JwtString.wellFormed c1Claims .refresh "rs" 5 105), none⟩] ∧
    (refreshToken demoCfg 5 c1Store (some c1Presented)).events =
      [.verifyAttempt, .storeFindById "1", .storeUpdate "1"] := by
  decide

/-! ## Claim C2 -/

/-- C2: the claim fails on the code. Login with the correct password
succeeds and returns a refresh token, but it persists that token under the
refresh_token key (line 89) while refresh compares against the refreshToken
key (line 158); so the refreshToken column is still empty after login and
the immediately presented login refresh token is rejected with the 403
replay response instead of succeeding. -/
theorem c2_login_refresh_token_field_mismatch :
    demoLogin.1 = ⟨200, [("message", RVal.s "Login successful"),
                         ("accessToken", RVal.t demoAccessToken),
                         ("refreshToken", RVal.t demoLoginToken)]⟩ ∧
    (demoLogin.2.headD emptyRecord).refresh_token = some demoLoginToken ∧
    (demoLogin.2.headD emptyRecord).refreshToken = none ∧
    (refreshToken demoCfg 1 demoLogin.2 (some demoLoginToken)).sent = [invalidRefreshResp] := by
  decide

/-! ## Claim C3 -/

/-- C3: the claim fails on the code. A refresh call with no presented token
does send the 401 MissingToken response and leaves the store untouched, but
the source omits return after res.status(401) at line 148, so processing
continues and jwt.verify is still attempted on the missing token (it
throws, and the catch then attempts a second, failing response write). The
claim requires that no token verification is attempted. -/
theorem c3_missing_token_still_attempts_verification (cfg : Config) (now : Nat) (s : Store) :
    refreshToken cfg now s none = ⟨[missingTokenResp], s, [.verifyAttempt]⟩ := by
  rfl

/-! ## Claim C10 -/

/-- C10: for every refresh call whose presented token fails codec
verification (missing-signature match, malformed, or expired), the handler
answers with the 403 invalid-or-expired response, performs no store lookup
and no store write, and returns the store unchanged. -/
theorem c10_verification_failure_leaves_state_unchanged (cfg : Config) (now : Nat)
    (s : Store) (t : JwtString)
    (h : jwtVerify (some t) cfg.refreshSecret now = .error ()) :
    refreshToken cfg now s (some t) = ⟨[invalidOrExpiredResp], s, [.verifyAttempt]⟩ := by
  unfold refreshToken
  rw [h]
  rfl

/-- C10 witness: a concrete malformed token exercises the theorem. -/
theorem c10_verification_failure_witness :
    refreshToken demoCfg 0 c1Store (some (JwtString.malformed "zz")) =
      ⟨[invalidOrExpiredResp], c1Store, [.verifyAttempt]⟩ :=
  c10_verification_failure_leaves_state_unchanged demoCfg 0 c1Store (JwtString.malformed "zz") rfl

/-! ## Claim C4 -/

/-- C4: counterexample. A user registered with email " A@B.com " is stored
under the normalized email, but a login presenting the casing variant
"A@B.com" of the same registered email does not resolve to the record: the
lookup runs on the raw string and fails, while the exact normalized string
succeeds. -/
theorem c4_counterexample :
    getK (lastFields demoStore) "email" = some "a@b.com" ∧
    (login demoCfg 0 demoStore "A@B.com" "pw").1 = ⟨404, [("error", RVal.s "User not found")]⟩ ∧
    (login demoCfg 0 demoStore "a@b.com" "pw").1.status = 200 := by
  decide

/-- C4 amended: only register normalizes the email (trimming and
lower-casing) before its lookup and write; login and social-login use the
raw email string for their lookups, so a store with no record whose email
column equals that exact raw string yields a 404 from login and a fresh
record creation from social-login, even when a normalization variant is
registered. -/
theorem c4_amended_only_register_normalizes :
    (∀ s d, storeFindByEmail s (normEmail (getKD d "email")) = none →
      (register s d).2.length = s.length + 1 ∧
      getK (lastFields (register s d).2) "email" = some (normEmail (getKD d "email"))) ∧
    (∀ cfg now s e p, storeFindByEmail s e = none →
      login cfg now s e p = (⟨404, [("error", RVal.s "User not found")]⟩, s)) ∧
    (∀ cfg now s e n, storeFindByEmail s e = none →
      (socialLogin cfg now s e n).2.length = s.length + 1) := by
  refine ⟨?_, ?_, ?_⟩
  · intro s d h
    rw [register_precheck_none s d h]
    constructor
    · simp
    · unfold lastFields
      rw [List.getLast?_concat]
      show getK (registerInserted s d).fields "email" = some (normEmail (getKD d "email"))
      unfold registerInserted
      rw [getK_createFields_attr s (registerRecord d) "email" (by decide) (by decide) (by decide)]
      exact getK_registerRecord_email d
  · intro cfg now s e p h
    exact login_no_user cfg now s e p h
  · intro cfg now s e n h
    exact socialLogin_new_email cfg now s e n h

/-- C4 amended witness: concrete instances of the three conjuncts. -/
theorem c4_amended_witness :
    ((register [] demoUser).2.length = 1 ∧
     getK (lastFields (register [] demoUser).2) "email" = some (normEmail (getKD demoUser "email"))) ∧
    login demoCfg 0 [] "x@y.z" "p" = (⟨404, [("error", RVal.s "User not found")]⟩, []) ∧
    (socialLogin demoCfg 0 [] "x@y.z" "N").2.length = 1 :=
  ⟨c4_amended_only_register_normalizes.1 [] demoUser rfl,
   c4_amended_only_register_normalizes.2.1 demoCfg 0 [] "x@y.z" "p" rfl,
   c4_amended_only_register_normalizes.2.2 demoCfg 0 [] "x@y.z" "N" rfl⟩

/-! ## Claim C5 -/

/-- C5: counterexample. Against the same store, a login with an unknown
email and a login with a registered email but a wrong password produce
different statuses and different messages (404 User not found versus 401
Invalid credentials), so the two failures are externally distinguishable
and reveal whether the email exists. -/
theorem c5_counterexample :
    login demoCfg 0 demoStore "nobody@x.com" "pw" =
      (⟨404, [("error", RVal.s "User not found")]⟩, demoStore) ∧
    login demoCfg 0 demoStore "a@b.com" "wrong" =
      (⟨401, [("error", RVal.s "Invalid credentials")]⟩, demoStore) ∧
    (login demoCfg 0 demoStore "nobody@x.com" "pw").1 ≠
      (login demoCfg 0 demoStore "a@b.com" "wrong").1 := by
  decide

/-- C5 amended: the two authentication failures are distinguishable: an
email matching no record always yields status 404 with message User not
found, while an existing record with a wrong password always yields status
401 with message Invalid credentials. -/
theorem c5_amended_distinguishable_failures :
    (∀ cfg now s e p, storeFindByEmail s e = none →
      login cfg now s e p = (⟨404, [("error", RVal.s "User not found")]⟩, s)) ∧
    (∀ cfg now s e p u q, storeFindByEmail s e = some u →
      getK u.fields "password" = some (bcryptHash q) → p ≠ q →
      login cfg now s e p = (⟨401, [("error", RVal.s "Invalid credentials")]⟩, s)) :=
  ⟨fun cfg now s e p h => login_no_user cfg now s e p h,
   fun cfg now s e p u q hf hpw hne => login_wrong_password cfg now s e p u q hf hpw hne⟩

/-- C5 amended witness: concrete instances of both conjuncts. -/
theorem c5_amended_witness :
    login demoCfg 0 [] "x@y.z" "p" = (⟨404, [("error", RVal.s "User not found")]⟩, []) ∧
    login demoCfg 0 demoStore "a@b.com" "wrong" =
      (⟨401, [("error", RVal.s "Invalid credentials")]⟩, demoStore) :=
  ⟨c5_amended_distinguishable_failures.1 demoCfg 0 [] "x@y.z" "p" rfl,
   c5_amended_distinguishable_failures.2 demoCfg 0 demoStore "a@b.com" "wrong"
     (demoStore.headD emptyRecord) "pw" (by decide) (by decide) (by decide)⟩

/-! ## Claim C6 -/

/-- C6: counterexample. A successful refresh (stored token matches the
presented one) for a record whose name and role have changed since the
token was issued (record: Bob, admin; old token payload: Alice, user)
returns new tokens whose claims still carry the old payload values, not the
current record values. -/
theorem c6_counterexample :
    (refreshToken demoCfg 5 c6Store (some c6Token)).sent =
      [⟨200, [("accessToken", RVal.t (JwtString.wellFormed c6Claims .access "as" 5 15)),
              ("refreshToken", RVal.t (JwtString.wellFormed c6Claims .refresh "rs" 5 105))]⟩] ∧
    getK (tokenClaims (JwtString.wellFormed c6Claims .refresh "rs" 5 105)) "name" = some "Alice" ∧
    getK c6Record.fields "name" = some "Bob" ∧
    getK (tokenClaims (JwtString.wellFormed c6Claims .refresh "rs" 5 105)) "name" ≠
      getK c6Record.fields "name" ∧
    getK (tokenClaims (JwtString.wellFormed c6Claims .refresh "rs" 5 105)) "role" ≠
      getK c6Record.fields "role" := by
  decide

/-- C6 amended: on every successful refresh the new token pair carries
exactly the payload of the presented old token (the fetched record is used
only for the stored-token comparison), so record changes since issuance are
not reflected. -/
theorem c6_amended_claims_from_old_payload (cfg : Config) (now : Nat) (s : Store)
    (t : JwtString) (payload : Obj) (u : UserRecord)
    (hv : jwtVerify (some t) cfg.refreshSecret now = .ok payload)
    (hf : storeFindById s (getKD payload "id") = some u)
    (hm : u.refreshToken = some t) :
    refreshToken cfg now s (some t) =
      ⟨[⟨200, [("accessToken", RVal.t (JwtString.wellFormed payload .access cfg.accessSecret now (now + cfg.accessTTL))),
               ("refreshToken", RVal.t (JwtString.wellFormed payload .refresh cfg.refreshSecret now (now + cfg.refreshTTL)))]⟩],
       storeUpdateRefreshToken s (getKD payload "id")
         (JwtString.wellFormed payload .refresh cfg.refreshSecret now (now + cfg.refreshTTL)),
       [.verifyAttempt, .storeFindById (getKD payload "id"), .storeUpdate (getKD payload "id")]⟩ := by
  rw [refreshToken_ok cfg now s (some t) payload hv]
  have hst : (storeFindById s (getKD payload "id")).bind (fun r => r.refreshToken) = some t := by
    rw [hf]
    exact hm
  unfold refreshOk
  rw [hst]
  rw [if_neg (fun hcon => hcon rfl)]
  rfl

/-- C6 amended witness: the concrete successful refresh of the
counterexample scenario. -/
theorem c6_amended_witness :
    refreshToken demoCfg 5 c6Store (some c6Token) =
      ⟨[⟨200, [("accessToken", RVal.t (JwtString.wellFormed c6Claims .access demoCfg.accessSecret 5 (5 + demoCfg.accessTTL))),
               ("refreshToken", RVal.t (JwtString.wellFormed c6Claims .refresh demoCfg.refreshSecret 5 (5 + demoCfg.refreshTTL)))]⟩],
       storeUpdateRefreshToken c6Store (getKD c6Claims "id")
         (JwtString.wellFormed c6Claims .refresh demoCfg.refreshSecret 5 (5 + demoCfg.refreshTTL)),
       [.verifyAttempt, .storeFindById (getKD c6Claims "id"), .storeUpdate (getKD c6Claims "id")]⟩ :=
  c6_amended_claims_from_old_payload demoCfg 5 c6Store c6Token c6Claims c6Record rfl (by decide) rfl

/-! ## Claim C7 -/

theorem getK_registerInserted_email (s : Store) (d : Obj) :
    getK (registerInserted s d).fields "email" = some (normEmail (getKD d "email")) := by
  unfold registerInserted
  rw [getK_createFields_attr s (registerRecord d) "email" (by decide) (by decide) (by decide)]
  exact getK_registerRecord_email d

theorem registerStep_none (s : Store) (d : Obj) :
    registerStep s none d = registerCreatePhase s d := rfl

theorem registerCreatePhase_ok (s : Store) (d : Obj)
    (h : storeFindByEmail s (normEmail (getKD d "email")) = none) :
    registerCreatePhase s d =
      (⟨201, [("message", RVal.s "User created successfully"),
              ("user", RVal.o (deleteK (registerInserted s d).fields "password"))]⟩,
       s ++ [registerInserted s d]) := by
  have hany : s.any (fun r => getK r.fields "email" == getK (registerRecord d) "email") = false := by
    simp only [getK_registerRecord_email]
    exact any_eq_false_of_find?_eq_none s _ h
  unfold registerCreatePhase storeCreate
  rw [hany]
  simp only [Bool.false_eq_true, if_false]
  rfl

theorem registerCreatePhase_conflict (s : Store) (d : Obj)
    (hany : s.any (fun r => getK r.fields "email" == getK (registerRecord d) "email") = true) :
    registerCreatePhase s d = (registerFailureResp, s) := by
  unfold registerCreatePhase storeCreate
  rw [hany]
  rfl

/-- C7: counterexample. Two concurrent registers with the same normalized
email, whose pre-checks both run before either create (the raced schedule),
end with one 201 creation and one failure that is the generic 500
infrastructure response, not the DuplicateEmail conflict response; exactly
one record is created. -/
theorem c7_counterexample :
    (racedRegisters [] c7d c7d).1.status = 201 ∧
    (racedRegisters [] c7d c7d).2.1 = registerFailureResp ∧
    registerFailureResp ≠ duplicateEmailResp ∧
    (racedRegisters [] c7d c7d).2.2.length = 1 := by
  decide

/-- C7 amended: sequential duplicate registration with the same normalized
email yields one created record and one DuplicateEmail conflict; but when
the pre-checks race (both run before either create), the losing create hits
the uniqueness constraint and the catch surfaces it as the generic 500
infrastructure failure instead of DuplicateEmail. In both schedules exactly
one record is created. -/
theorem c7_amended_raced_duplicate_is_generic_error :
    (∀ s d1 d2, normEmail (getKD d1 "email") = normEmail (getKD d2 "email") →
      storeFindByEmail s (normEmail (getKD d1 "email")) = none →
      (register s d1).1.status = 201 ∧
      (register (register s d1).2 d2).1 = duplicateEmailResp ∧
      (register (register s d1).2 d2).2 = (register s d1).2 ∧
      (register s d1).2.length = s.length + 1) ∧
    (∀ s d1 d2, normEmail (getKD d1 "email") = normEmail (getKD d2 "email") →
      storeFindByEmail s (normEmail (getKD d1 "email")) = none →
      (racedRegisters s d1 d2).1.status = 201 ∧
      (racedRegisters s d1 d2).2.1 = registerFailureResp ∧
      (racedRegisters s d1 d2).2.2.length = s.length + 1) := by
  constructor
  · intro s d1 d2 hnorm h
    have hreg := register_precheck_none s d1 h
    have hfind : storeFindByEmail (s ++ [registerInserted s d1]) (normEmail (getKD d2 "email")) =
        some (registerInserted s d1) := by
      rw [← hnorm]
      exact storeFindByEmail_append_single s (registerInserted s d1) _ h
        (getK_registerInserted_email s d1)
    refine ⟨?_, ?_, ?_, ?_⟩
    · rw [hreg]
    · rw [hreg]
      show (register (s ++ [registerInserted s d1]) d2).1 = duplicateEmailResp
      unfold register registerStep
      rw [hfind]
      rfl
    · rw [hreg]
      show (register (s ++ [registerInserted s d1]) d2).2 = s ++ [registerInserted s d1]
      unfold register registerStep
      rw [hfind]
      rfl
    · rw [hreg]
      simp
  · intro s d1 d2 hnorm h
    have h2 : storeFindByEmail s (normEmail (getKD d2 "email")) = none := by
      rw [← hnorm]
      exact h
    have hany2 : (s ++ [registerInserted s d1]).any
        (fun r => getK r.fields "email" == getK (registerRecord d2) "email") = true := by
      simp only [getK_registerRecord_email]
      rw [← hnorm]
      rw [List.any_append]
      have hone : [registerInserted s d1].any
          (fun r => getK r.fields "email" == some (normEmail (getKD d1 "email"))) = true := by
        simp [List.any_cons, getK_registerInserted_email s d1]
      rw [hone, Bool.or_true]
    have hconf := registerCreatePhase_conflict (s ++ [registerInserted s d1]) d2 hany2
    have hraced : racedRegisters s d1 d2 =
        (⟨201, [("message", RVal.s "User created successfully"),
                ("user", RVal.o (deleteK (registerInserted s d1).fields "password"))]⟩,
         registerFailureResp, s ++ [registerInserted s d1]) := by
      unfold racedRegisters
      rw [h, h2]
      simp only [registerStep_none]
      rw [registerCreatePhase_ok s d1 h]
      simp only [hconf]
    refine ⟨?_, ?_, ?_⟩
    · rw [hraced]
    · rw [hraced]
    · rw [hraced]
      simp

/-- C7 amended witness: concrete sequential and raced duplicate
registrations with casing and whitespace variation in the email. -/
theorem c7_amended_witness :
    ((register [] c7d).1.status = 201 ∧
     (register (register [] c7d).2 c7dVar).1 = duplicateEmailResp ∧
     (register (register [] c7d).2 c7dVar).2 = (register [] c7d).2 ∧
     (register [] c7d).2.length = 1) ∧
    ((racedRegisters [] c7d c7dVar).1.status = 201 ∧
     (racedRegisters [] c7d c7dVar).2.1 = registerFailureResp ∧
     (racedRegisters [] c7d c7dVar).2.2.length = 1) :=
  ⟨c7_amended_raced_duplicate_is_generic_error.1 [] c7d c7dVar (by decide) rfl,
   c7_amended_raced_duplicate_is_generic_error.2 [] c7d c7dVar (by decide) rfl⟩

/-! ## Claim C8 -/

theorem loginFound_nopw (cfg : Config) (now : Nat) (s : Store) (u : UserRecord) (p : String)
    (hpw : getK u.fields "password" = none) :
    loginFound cfg now s u p = (⟨400, [("error", RVal.s "Illegal arguments")]⟩, s) := by
  unfold loginFound
  rw [hpw]

/-- C8: every register response and every login response carries no password
key anywhere in its body: not at the top level, not inside the returned user
object (the password is deleted before responding), and not inside the
claims of any returned token (the claims are assembled from id, name, email
and role only). This covers in particular every successful register and
login. -/
theorem c8_no_password_anywhere_in_responses :
    (∀ s d, bodyHasKey "password" (register s d).1.body = false) ∧
    (∀ cfg now s e p, bodyHasKey "password" (login cfg now s e p).1.body = false) := by
  constructor
  · intro s d
    by_cases hpre : (storeFindByEmail s (normEmail (getKD d "email"))).isSome = true
    · unfold register registerStep
      rw [if_pos hpre]
      show bodyHasKey "password" duplicateEmailResp.body = false
      decide
    · have hnone : storeFindByEmail s (normEmail (getKD d "email")) = none :=
        Option.not_isSome_iff_eq_none.mp hpre
      rw [register_precheck_none s d hnone]
      simp [bodyHasKey, rvalHasKey, any_deleteK_self]
  · intro cfg now s e p
    cases hf : storeFindByEmail s e with
    | none =>
        rw [login_no_user cfg now s e p hf]
        show bodyHasKey "password" [("error", RVal.s "User not found")] = false
        decide
    | some u =>
        rw [login_found cfg now s e p u hf]
        cases hpw : getK u.fields "password" with
        | none =>
            rw [loginFound_nopw cfg now s u p hpw]
            show bodyHasKey "password" [("error", RVal.s "Illegal arguments")] = false
            decide
        | some digest =>
            rw [loginFound_digest cfg now s p u digest hpw]
            unfold loginCompare
            by_cases hcmp : bcryptCompare p digest = true
            · rw [if_pos hcmp]
              simp [bodyHasKey, rvalHasKey, tokenClaims, generateTokens, claimsOf]
            · rw [if_neg hcmp]
              show bodyHasKey "password" [("error", RVal.s "Invalid credentials")] = false
              decide

/-! ## Claim C9 -/

/-- C9: counterexample. A register payload carrying the extra field isAdmin
is not copied verbatim into the created record: the store keeps only the
model attributes, so the created record has no isAdmin field even though
the payload supplied one. -/
theorem c9_counterexample :
    (register [] c9d).1.status = 201 ∧
    getK c9d "isAdmin" = some "yes" ∧
    getK (lastFields (register [] c9d).2) "isAdmin" = none := by
  decide

/-- C9 amended: register spreads the whole request payload into the create
call with only the email (normalized) and password (hashed) overridden, and
the store keeps exactly the model-attribute fields of it: name and a
caller-supplied role (no validation or filtering happens in the controller,
so the role is stored as-is), while payload fields outside the model
attributes are dropped by the store, not by the controller. -/
theorem c9_amended_attribute_fields_copied (s : Store) (d : Obj) (rv k : String)
    (h : storeFindByEmail s (normEmail (getKD d "email")) = none)
    (hr : getK d "role" = some rv)
    (hk : attrNames.contains k = false) :
    (register s d).2 = s ++ [registerInserted s d] ∧
    getK (registerInserted s d).fields "email" = some (normEmail (getKD d "email")) ∧
    getK (registerInserted s d).fields "password" = some (bcryptHash (getKD d "password")) ∧
    getK (registerInserted s d).fields "name" = getK d "name" ∧
    getK (registerInserted s d).fields "role" = some rv ∧
    getK (registerInserted s d).fields k = none := by
  refine ⟨?_, ?_, ?_, ?_, ?_, ?_⟩
  · rw [register_precheck_none s d h]
  · exact getK_registerInserted_email s d
  · unfold registerInserted
    rw [getK_createFields_attr s (registerRecord d) "password" (by decide) (by decide) (by decide)]
    exact getK_registerRecord_password d
  · unfold registerInserted
    rw [getK_createFields_attr s (registerRecord d) "name" (by decide) (by decide) (by decide)]
    exact getK_registerRecord_other d "name" (by decide) (by decide)
  · unfold registerInserted
    apply getK_createFields_role
    rw [getK_registerRecord_other d "role" (by decide) (by decide)]
    exact hr
  · unfold registerInserted
    exact getK_createFields_not_attr s (registerRecord d) k hk

/-- C9 amended witness: a concrete register payload with a caller-supplied
role and an extra non-attribute field. -/
theorem c9_amended_witness :
    (register [] c9wd).2 = [] ++ [registerInserted [] c9wd] ∧
    getK (registerInserted [] c9wd).fields "email" = some (normEmail (getKD c9wd "email")) ∧
    getK (registerInserted [] c9wd).fields "password" = some (bcryptHash (getKD c9wd "password")) ∧
    getK (registerInserted [] c9wd).fields "name" = getK c9wd "name" ∧
    getK (registerInserted [] c9wd).fields "role" = some "admin" ∧
    getK (registerInserted [] c9wd).fields "isAdmin" = none :=
  c9_amended_attribute_fields_copied [] c9wd "admin" "isAdmin" rfl (by decide) (by decide)
